import Mathlib

/-!
# Vision360 — shallow embedding of the frame–inference–event pipeline

This file embeds, in Lean, the core pipeline of the Vision360 repository:

* label parsing and person derivation (`src/main.py` lines 261–278,
  `src/cliente_valdivia.py` lines 220–237),
* the detection debouncer (`person_streak`, `src/main.py` 280–289,
  `src/cliente_valdivia.py` 239–248),
* the event gate (event cooldown / alert cooldown / edge trigger,
  `src/main.py` 321–351, `src/cliente_valdivia.py` 300–323),
* the single-flight inference scheduler (`src/main.py` 454–461,
  `src/cliente_valdivia.py` 351–358),
* whole detection cycles (`run_inference`) for both clients, with explicit
  fault injection at each external call, reflecting the `try/except/finally`
  structure,
* the severity classifier of `src/backend/tests/test_aws_service.py` 120–125.

Time values (Python floats from `time.time()`) are modelled as rationals.
Within one detection cycle the several `time.time()` calls are modelled as a
single instant `now`; the claims under study do not distinguish sub-cycle
clock drift.  Image buffers, JPEG encoding and bounding boxes are opaque to
every claim and are not modelled; the label list returned by the detection
service is the cycle's input.
-/

namespace Vision360

/-! ## Configuration constants (src/main.py 24–37, src/cliente_valdivia.py 25–37) -/

def INFER_EVERY_SEC : ℚ := 1
def EVENT_COOLDOWN_SEC : ℚ := 12
def MIN_PERSON_FRAMES : Nat := 2
def EMAIL_COOLDOWN_SEC : ℚ := 180
def TOP_LABELS : Nat := 4
def HEARTBEAT_SEC : ℚ := 5

/-! ## Labels and person derivation -/

/-- One label returned by the detection service (`resp["Labels"]` entry):
a name and a confidence (percentage). -/
structure Label where
  name : String
  confidence : ℚ
deriving Repr, DecidableEq

/-- Stable insertion of a label into a confidence-descending list, placing the
inserted element before every element of not-larger confidence, which matches
Python's stable `sorted(..., key=confidence, reverse=True)` when used as the
fold below. -/
def insertByConfDesc (l : Label) : List Label → List Label
  | [] => [l]
  | h :: t => if h.confidence ≤ l.confidence then l :: h :: t else h :: insertByConfDesc l t

/-- `sorted(labels, key=lambda x: x.get("Confidence", 0), reverse=True)`:
stable descending sort by confidence. -/
def sortByConfDesc : List Label → List Label
  | [] => []
  | h :: t => insertByConfDesc h (sortByConfDesc t)

/-- `labels_sorted` (src/main.py 266–267): sort by confidence descending and
keep the first `TOP_LABELS` entries. -/
def labelsSorted (labels : List Label) : List Label :=
  (sortByConfDesc labels).take TOP_LABELS

/-- ASCII lower-casing of one character, the effect of Python's `str.lower()`
on the ASCII label names the detection service returns. -/
def charToLower (c : Char) : Char :=
  if 65 ≤ c.toNat ∧ c.toNat ≤ 90 then Char.ofNat (c.toNat + 32) else c

/-- `lab["Name"].lower() == "person"` (src/main.py 271), on the character
list of the name. -/
def isPersonLabel (l : Label) : Bool := l.name.data.map charToLower == "person".data

/-- The person-derivation loop over `labels_sorted` (src/main.py 269–273):
`found_person` starts `False`, `best_conf` starts `0.0`; each person label sets
`found_person = True` and `best_conf = max(best_conf, confidence)`. -/
def deriveDetection (labels : List Label) : Bool × ℚ :=
  (labelsSorted labels).foldl
    (fun acc lab => if isPersonLabel lab then (true, max acc.2 lab.confidence) else acc)
    (false, 0)

/-- Spec-side predicate (§3 DetectionResult): some label of the full list is
case-insensitively equal to "person". -/
def anyPersonLabel (labels : List Label) : Bool :=
  labels.any isPersonLabel

/-- Overlay texts built from the sorted labels (src/main.py 270); the
`"%.1f%%"` confidence suffix is a float-formatting detail no claim reads, so
the text is modelled by the label name. -/
def labelTexts (labels : List Label) : List String :=
  (labelsSorted labels).map (·.name)

/-! ## Detection debouncer -/

/-- `person_streak = person_streak + 1 if found_person else 0`
(src/main.py 281). -/
def debStep (streak : Nat) (found : Bool) : Nat :=
  if found then streak + 1 else 0

/-- The cycle continues downstream with a person present iff the early return
`if found_person and person_streak < MIN_PERSON_FRAMES: return`
(src/main.py 282) is not taken while `found_person` holds. -/
def debConfirmed (streakUpdated : Nat) (found : Bool) : Bool :=
  found && !(found && decide (streakUpdated < MIN_PERSON_FRAMES))

/-- Streak value after consuming a whole signal sequence, starting from a
given streak. -/
def streakAfter (streak : Nat) (sigs : List Bool) : Nat :=
  sigs.foldl debStep streak

/-- Per-signal confirmation decisions over a run of detection cycles. -/
def debTrace (streak : Nat) : List Bool → List Bool
  | [] => []
  | s :: rest => debConfirmed (debStep streak s) s :: debTrace (debStep streak s) rest

/-- Spec-side quantity (§8): length of the run of `true` signals ending the
sequence ("current positive streak length"). -/
def trailingTrues (sigs : List Bool) : Nat :=
  (sigs.reverse.takeWhile id).length

/-! ## Event gate

`gateDecide` is the straight-line, fault-free reading of the event/alert
cooldown block (src/main.py 321–351, src/cliente_valdivia.py 300–323):
`should_record`, then `last_event_ts = now`, then the alert condition with
`entered_alert_state` and `email_cooldown_ok`, then `last_email_ts = now` when
the alert fires, then `prev_person_state = found_person`.  The early `return`
on `not should_record` leaves every gate variable unchanged. -/

structure GateConfig where
  uploadOnlyIfPerson : Bool
  eventCooldown : ℚ
  alertCooldown : ℚ
  snsConfigured : Bool
deriving Repr, DecidableEq

structure GateState where
  lastEventTs : ℚ
  lastAlertTs : ℚ
  prevPersonConfirmed : Bool
deriving Repr, DecidableEq

structure GateDecision where
  record : Bool
  alert : Bool
  state : GateState
deriving Repr, DecidableEq

def gateDecide (cfg : GateConfig) (st : GateState) (now : ℚ)
    (foundPerson authorized : Bool) : GateDecision :=
  let shouldRecord := (!cfg.uploadOnlyIfPerson || foundPerson)
      && decide (cfg.eventCooldown ≤ now - st.lastEventTs)
  if shouldRecord then
    let st1 : GateState := { st with lastEventTs := now }
    if !cfg.uploadOnlyIfPerson || foundPerson then
      let enteredAlertState := foundPerson && !authorized && !st.prevPersonConfirmed
      let alertCooldownOk := decide (cfg.alertCooldown ≤ now - st.lastAlertTs)
      let alert := (enteredAlertState || alertCooldownOk)
          && foundPerson && !authorized && cfg.snsConfigured
      let st2 : GateState := if alert then { st1 with lastAlertTs := now } else st1
      { record := true, alert := alert,
        state := { st2 with prevPersonConfirmed := foundPerson } }
    else
      { record := true, alert := false, state := st1 }
  else
    { record := false, alert := false, state := st }

/-! ## Single-flight inference scheduler (src/main.py 454–461, src/cliente_valdivia.py 351–358) -/

structure SchedState where
  inFlight : Bool
  lastInferT : ℚ
deriving Repr, DecidableEq

/-- One capture-loop tick:
`can_launch = (now - last_infer_t >= INFER_EVERY_SEC) and (infer_in_flight is False)`;
when true, `last_infer_t = now` and `infer_in_flight = True` and the detection
cycle is spawned.  Returns (launched, new state). -/
def tryLaunch (interval : ℚ) (st : SchedState) (now : ℚ) : Bool × SchedState :=
  let canLaunch := decide (interval ≤ now - st.lastInferT) && !st.inFlight
  if canLaunch then (true, { inFlight := true, lastInferT := now }) else (false, st)

/-- Events seen by the scheduler state: a capture-loop tick at a given time, or
the in-flight release performed by a finishing detection cycle (the `finally`
of `run_inference`). -/
inductive SchedEvent
  | tick (now : ℚ)
  | release
deriving Repr, DecidableEq

def schedStep (st : SchedState) : SchedEvent → SchedState
  | .tick now => (tryLaunch INFER_EVERY_SEC st now).2
  | .release => { st with inFlight := false }

def launchedOn (st : SchedState) : SchedEvent → Bool
  | .tick now => (tryLaunch INFER_EVERY_SEC st now).1
  | .release => false

/-- Per-event launch decisions along a run of the scheduler. -/
def schedLaunches (st : SchedState) : List SchedEvent → List Bool
  | [] => []
  | e :: es => launchedOn st e :: schedLaunches (schedStep st e) es

/-! ## Severity classification (src/backend/tests/test_aws_service.py 120–125) -/

inductive Severity
  | high
  | medium
  | low
deriving Repr, DecidableEq

/-- `classify_severity(person_detected, authorized, confidence)`:
`if person_detected and not authorized: return 'high'`;
`if confidence and confidence < 70: return 'medium'`; `return 'low'`.
`confidence` is `None` or a number; Python's `if confidence` tests truthiness,
so both `None` and `0` fail the medium guard. -/
def classify_severity (personDetected authorized : Bool) (confidence : Option ℚ) : Severity :=
  if personDetected && !authorized then .high
  else
    match confidence with
    | some c => if c ≠ 0 ∧ c < 70 then .medium else .low
    | none => .low

/-! ## Detection cycles with fault injection

`run_inference` in both clients is one `try/except (BotoCoreError, ClientError)
/except Exception/finally` block.  A cycle's interaction with the outside world
is its label list (the `detect_labels` response), the face-search outcome
(cliente_valdivia only) and which external call, if any, raises.  `Fault` names
the raising call; the constructor payload is the AWS error code rendered by the
handler (`AWSERR:{code}`). -/

inductive Fault
  | noFault
  | detect (code : String)
  | faceSearch (code : String)
  | upload (code : String)
  | persist (code : String)
  | publish (code : String)
deriving Repr, DecidableEq

/-- The fields of `result_item` that the claims read. -/
structure EventItem where
  personDetected : Bool
  authorized : Bool
  confidence : ℚ
  s3Key : String
deriving Repr, DecidableEq

structure CycleConfig where
  minPersonFrames : Nat
  uploadOnlyIfPerson : Bool
  eventCooldown : ℚ
  alertCooldown : ℚ
  snsConfigured : Bool
  heartbeatSec : ℚ
deriving Repr, DecidableEq

/-- `deque(maxlen=6).appendleft(s)` on contents `l`: push on the left, drop
from the right beyond 6. -/
def appendLeft6 (s : String) (l : List String) : List String :=
  (s :: l).take 6

/-- `deque(maxlen=6).clear(); extend(xs)`: keeps the last 6 entries of `xs`. -/
def setTexts (xs : List String) : List String :=
  xs.drop (xs.length - 6)

namespace Cliente

/-- The global state read and written by one `run_inference` cycle of
src/cliente_valdivia.py (`last_labels_text`, `person_flag`, `person_streak`,
`last_event_ts`, `last_email_ts`, `prev_person_state`, `infer_in_flight`). -/
structure CycleState where
  personStreak : Nat
  texts : List String
  personFlag : Bool
  lastEventTs : ℚ
  lastAlertTs : ℚ
  prevPersonConfirmed : Bool
  inFlight : Bool
deriving Repr, DecidableEq

/-- Cycle outcome: final state, events durably persisted, alerts published,
plus the values of `should_record` and of the alert condition (false when the
cycle never reached them). -/
structure CycleResult where
  state : CycleState
  persisted : List EventItem
  published : Nat
  recorded : Bool
  alerted : Bool
deriving Repr, DecidableEq

/-- The `except (BotoCoreError, ClientError)` handler
(src/cliente_valdivia.py 325–331) — prepend `AWSERR:{code}` to the overlay
deque — followed by the `finally` (335–337) releasing `infer_in_flight`. -/
def awsCatch (st : CycleState) (code : String) (persisted : List EventItem)
    (recorded alerted : Bool) : CycleResult :=
  { state := { st with texts := appendLeft6 ("AWSERR:" ++ code) st.texts, inFlight := false },
    persisted := persisted, published := 0, recorded := recorded, alerted := alerted }

/-- Normal exit through the `finally` (src/cliente_valdivia.py 335–337). -/
def finish (st : CycleState) (persisted : List EventItem) (published : Nat)
    (recorded alerted : Bool) : CycleResult :=
  { state := { st with inFlight := false },
    persisted := persisted, published := published, recorded := recorded, alerted := alerted }

/-- One cycle of `run_inference` (src/cliente_valdivia.py 204–337).
`faceMatched` is the `match` field `search_face_in_collection` would report on
its success path; that helper swallows its own service errors and returns
no-match, so a `faceSearch` fault degrades to `matched = False` instead of
raising. -/
def runCycle (cfg : CycleConfig) (st : CycleState) (now : ℚ)
    (labels : List Label) (faceMatched : Bool) (fault : Fault) : CycleResult :=
  match fault with
  | .detect code => awsCatch st code [] false false
  | _ =>
    let fp := (deriveDetection labels).1
    let bestConf := (deriveDetection labels).2
    let streak := debStep st.personStreak fp
    let st := { st with personStreak := streak }
    if fp && decide (streak < cfg.minPersonFrames) then
      -- early return: overlay updated, no downstream action (lines 241–248)
      finish { st with texts := setTexts (labelTexts labels), personFlag := fp } [] 0 false false
    else
      let st := { st with texts := setTexts (labelTexts labels), personFlag := fp }
      -- face search only when a person was found (lines 275–284)
      let authorized := fp && (match fault with | .faceSearch _ => false | _ => faceMatched)
      let item : EventItem :=
        { personDetected := fp, authorized := authorized, confidence := bestConf, s3Key := "" }
      let shouldRecord := (!cfg.uploadOnlyIfPerson || fp)
          && decide (cfg.eventCooldown ≤ now - st.lastEventTs)
      if !shouldRecord then finish st [] 0 false false
      else
        let st := { st with lastEventTs := now }
        if !cfg.uploadOnlyIfPerson || fp then
          match fault with
          | .upload code => awsCatch st code [] true false
          | _ =>
            let item := { item with s3Key := "events/raw/thumb.jpg" }
            match fault with
            | .persist code => awsCatch st code [] true false
            | _ =>
              let persisted := [item]
              let entered := fp && !authorized && !st.prevPersonConfirmed
              let cooldownOk := decide (cfg.alertCooldown ≤ now - st.lastAlertTs)
              let alert := (entered || cooldownOk) && fp && !authorized && cfg.snsConfigured
              if alert then
                match fault with
                | .publish code => awsCatch st code persisted true true
                | _ =>
                  finish { st with lastAlertTs := now, prevPersonConfirmed := fp }
                    persisted 1 true true
              else
                finish { st with prevPersonConfirmed := fp } persisted 0 true false
        else
          finish st [] 0 true false

end Cliente

namespace Main

/-- The global state read and written by one `run_inference` cycle of
src/main.py; this client additionally keeps `last_heartbeat_ts`. -/
structure CycleState where
  personStreak : Nat
  texts : List String
  personFlag : Bool
  lastEventTs : ℚ
  lastAlertTs : ℚ
  prevPersonConfirmed : Bool
  inFlight : Bool
  lastHeartbeatTs : ℚ
deriving Repr, DecidableEq

structure CycleResult where
  state : CycleState
  persisted : List EventItem
  published : Nat
  recorded : Bool
  alerted : Bool
deriving Repr, DecidableEq

/-- `except (BotoCoreError, ClientError)` handler (src/main.py 353–356) plus
the `finally` (360–362). -/
def awsCatch (st : CycleState) (code : String) (persisted : List EventItem)
    (recorded alerted : Bool) : CycleResult :=
  { state := { st with texts := appendLeft6 ("AWSERR:" ++ code) st.texts, inFlight := false },
    persisted := persisted, published := 0, recorded := recorded, alerted := alerted }

def finish (st : CycleState) (persisted : List EventItem) (published : Nat)
    (recorded alerted : Bool) : CycleResult :=
  { state := { st with inFlight := false },
    persisted := persisted, published := published, recorded := recorded, alerted := alerted }

/-- One cycle of `run_inference` (src/main.py 235–362).  Differences from
cliente_valdivia faithfully kept:
* the heartbeat/config block (240–247) runs *before* the `try`; when it is due
  and the camera is inactive the function returns without ever reaching the
  `finally`, so `infer_in_flight` is left set;
* no face search; `result_item["authorized"]` is the literal `False` (315);
* `upload_to_s3` (160–175) and `write_event_ddb` (177–200) catch their own
  errors, and `publish_alert_sns` (202–233) catches the SNS error, so upload,
  persistence and publish faults are swallowed inside the helpers: the cycle
  continues, with the event not stored on a persistence fault and `s3_key`
  left empty on an upload fault. -/
def runCycle (cfg : CycleConfig) (st : CycleState) (now : ℚ)
    (labels : List Label) (active : Bool) (fault : Fault) : CycleResult :=
  let hbDue := decide (cfg.heartbeatSec < now - st.lastHeartbeatTs)
  if hbDue && !active then
    { state := { st with lastHeartbeatTs := now },
      persisted := [], published := 0, recorded := false, alerted := false }
  else
    let st := if hbDue then { st with lastHeartbeatTs := now } else st
    match fault with
    | .detect code => awsCatch st code [] false false
    | _ =>
      let fp := (deriveDetection labels).1
      let bestConf := (deriveDetection labels).2
      let streak := debStep st.personStreak fp
      let st := { st with personStreak := streak }
      if fp && decide (streak < cfg.minPersonFrames) then
        finish { st with texts := setTexts (labelTexts labels), personFlag := fp } [] 0 false false
      else
        let st := { st with texts := setTexts (labelTexts labels), personFlag := fp }
        let authorized := false
        let item : EventItem :=
          { personDetected := fp, authorized := authorized, confidence := bestConf, s3Key := "" }
        let shouldRecord := (!cfg.uploadOnlyIfPerson || fp)
            && decide (cfg.eventCooldown ≤ now - st.lastEventTs)
        if !shouldRecord then finish st [] 0 false false
        else
          let st := { st with lastEventTs := now }
          if !cfg.uploadOnlyIfPerson || fp then
            let item := match fault with
              | .upload _ => item
              | _ => { item with s3Key := "events/raw/thumb.jpg" }
            let persisted := match fault with
              | .persist _ => []
              | _ => [item]
            let entered := fp && !authorized && !st.prevPersonConfirmed
            let cooldownOk := decide (cfg.alertCooldown ≤ now - st.lastAlertTs)
            let alert := (entered || cooldownOk) && fp && !authorized && cfg.snsConfigured
            if alert then
              let published := match fault with
                | .publish _ => 0
                | _ => 1
              finish { st with lastAlertTs := now, prevPersonConfirmed := fp }
                persisted published true true
            else
              finish { st with prevPersonConfirmed := fp } persisted 0 true false
          else
            finish st [] 0 true false

end Main

/-! ## Helper lemmas about the event gate -/

/-- Closed form of `gateDecide`: record/alert decisions and each state field. -/
theorem gateDecide_spec (cfg : GateConfig) (st : GateState) (now : ℚ) (p a : Bool) :
    gateDecide cfg st now p a =
      { record := (!cfg.uploadOnlyIfPerson || p)
            && decide (cfg.eventCooldown ≤ now - st.lastEventTs),
        alert := ((!cfg.uploadOnlyIfPerson || p)
              && decide (cfg.eventCooldown ≤ now - st.lastEventTs))
            && (((p && !a && !st.prevPersonConfirmed)
                  || decide (cfg.alertCooldown ≤ now - st.lastAlertTs))
                && p && !a && cfg.snsConfigured),
        state :=
          { lastEventTs :=
              if (!cfg.uploadOnlyIfPerson || p)
                  && decide (cfg.eventCooldown ≤ now - st.lastEventTs) then now
              else st.lastEventTs,
            lastAlertTs :=
              if ((!cfg.uploadOnlyIfPerson || p)
                    && decide (cfg.eventCooldown ≤ now - st.lastEventTs))
                  && (((p && !a && !st.prevPersonConfirmed)
                        || decide (cfg.alertCooldown ≤ now - st.lastAlertTs))
                      && p && !a && cfg.snsConfigured) then now
              else st.lastAlertTs,
            prevPersonConfirmed :=
              if (!cfg.uploadOnlyIfPerson || p)
                  && decide (cfg.eventCooldown ≤ now - st.lastEventTs) then p
              else st.prevPersonConfirmed } } := by
  rcases Bool.eq_false_or_eq_true (!cfg.uploadOnlyIfPerson || p) with hA | hA <;>
    rcases Bool.eq_false_or_eq_true (decide (cfg.eventCooldown ≤ now - st.lastEventTs))
      with hB | hB <;>
    rcases Bool.eq_false_or_eq_true (((p && !a && !st.prevPersonConfirmed)
        || decide (cfg.alertCooldown ≤ now - st.lastAlertTs))
        && p && !a && cfg.snsConfigured) with hE | hE <;>
    simp [gateDecide, hA, hB, hE]

theorem gate_record_def (cfg : GateConfig) (st : GateState) (now : ℚ) (p a : Bool) :
    (gateDecide cfg st now p a).record
      = ((!cfg.uploadOnlyIfPerson || p) && decide (cfg.eventCooldown ≤ now - st.lastEventTs)) := by
  rw [gateDecide_spec]

theorem gate_state_of_record (cfg : GateConfig) (st : GateState) (now : ℚ) (p a : Bool)
    (h : (gateDecide cfg st now p a).record = true) :
    (gateDecide cfg st now p a).state.lastEventTs = now
    ∧ (gateDecide cfg st now p a).state.prevPersonConfirmed = p := by
  rw [gate_record_def] at h
  rw [gateDecide_spec]
  simp [h]

theorem gate_state_of_not_record (cfg : GateConfig) (st : GateState) (now : ℚ) (p a : Bool)
    (h : (gateDecide cfg st now p a).record = false) :
    (gateDecide cfg st now p a).state = st := by
  rw [gate_record_def] at h
  rw [gateDecide_spec]
  simp [h]

theorem gate_alert_def (cfg : GateConfig) (st : GateState) (now : ℚ) (p a : Bool) :
    (gateDecide cfg st now p a).alert
      = ((gateDecide cfg st now p a).record
          && (((p && !a && !st.prevPersonConfirmed)
              || decide (cfg.alertCooldown ≤ now - st.lastAlertTs))
            && p && !a && cfg.snsConfigured)) := by
  rw [gate_record_def, gateDecide_spec]

theorem gate_lastAlertTs_of_alert (cfg : GateConfig) (st : GateState) (now : ℚ) (p a : Bool)
    (h : (gateDecide cfg st now p a).alert = true) :
    (gateDecide cfg st now p a).state.lastAlertTs = now := by
  rw [gate_alert_def, gate_record_def] at h
  rw [gateDecide_spec]
  simp only [GateDecision.state, GateState.lastAlertTs]
  rw [if_pos]
  exact h

theorem gate_lastAlertTs_of_not_alert (cfg : GateConfig) (st : GateState) (now : ℚ) (p a : Bool)
    (h : (gateDecide cfg st now p a).alert = false) :
    (gateDecide cfg st now p a).state.lastAlertTs = st.lastAlertTs := by
  rw [gate_alert_def, gate_record_def] at h
  rw [gateDecide_spec]
  simp only [GateDecision.state, GateState.lastAlertTs]
  rw [if_neg]
  simp [h]

/-- C1 (record rule), general part and the t / t+5 / t+13 cooldown scenario. -/
theorem C1_event_gate_record_rule :
    (∀ (cfg : GateConfig) (st : GateState) (now : ℚ) (p a : Bool),
      ((gateDecide cfg st now p a).record
        = ((p || !cfg.uploadOnlyIfPerson) && decide (cfg.eventCooldown ≤ now - st.lastEventTs)))
      ∧ ((gateDecide cfg st now p a).record = true →
          (gateDecide cfg st now p a).state.lastEventTs = now)
      ∧ ((gateDecide cfg st now p a).record = false →
          (gateDecide cfg st now p a).state.lastEventTs = st.lastEventTs))
    ∧ (∀ (cfg : GateConfig) (st : GateState) (t : ℚ) (a : Bool),
        cfg.eventCooldown = 12 → 12 ≤ t - st.lastEventTs →
        (gateDecide cfg st t true a).record = true
        ∧ (gateDecide cfg (gateDecide cfg st t true a).state (t + 5) true a).record = false
        ∧ (gateDecide cfg
            (gateDecide cfg (gateDecide cfg st t true a).state (t + 5) true a).state
            (t + 13) true a).record = true) := by
  constructor
  · intro cfg st now p a
    refine ⟨?_, fun h => (gate_state_of_record cfg st now p a h).1,
        fun h => by rw [gate_state_of_not_record cfg st now p a h]⟩
    rw [gate_record_def, Bool.or_comm]
  · intro cfg st t a hcd h12
    have h1 : (gateDecide cfg st t true a).record = true := by
      rw [gate_record_def, hcd]
      simp [h12]
    have he1 : (gateDecide cfg st t true a).state.lastEventTs = t :=
      (gate_state_of_record cfg st t true a h1).1
    have h2 : (gateDecide cfg (gateDecide cfg st t true a).state (t + 5) true a).record
        = false := by
      rw [gate_record_def, hcd, he1]
      have : ¬ ((12 : ℚ) ≤ t + 5 - t) := by norm_num
      simp [this]
      norm_num
    have he2 : (gateDecide cfg (gateDecide cfg st t true a).state (t + 5) true a).state
        = (gateDecide cfg st t true a).state :=
      gate_state_of_not_record _ _ _ _ _ h2
    have h3 : (gateDecide cfg
        (gateDecide cfg (gateDecide cfg st t true a).state (t + 5) true a).state
        (t + 13) true a).record = true := by
      rw [gate_record_def, hcd, he2, he1]
      have : (12 : ℚ) ≤ t + 13 - t := by norm_num
      simp [this]
      norm_num
    exact ⟨h1, h2, h3⟩

/-- Witness for C1 at a concrete input. -/
theorem C1_witness :
    (⟨true, 12, 180, true⟩ : GateConfig).eventCooldown = 12
    ∧ (12 : ℚ) ≤ 100 - (⟨0, 0, false⟩ : GateState).lastEventTs
    ∧ (gateDecide ⟨true, 12, 180, true⟩ ⟨0, 0, false⟩ 100 true false).record = true := by
  refine ⟨rfl, by norm_num, ?_⟩
  exact (C1_event_gate_record_rule.2 ⟨true, 12, 180, true⟩ ⟨0, 0, false⟩ 100 false rfl
    (by norm_num)).1

/-- C2 (alert rule): alerts only on recorded, unauthorized-person evaluations;
there, alert iff edge-trigger or elapsed alert cooldown; alert updates
`lastAlertTimestamp`; and the no-person → unauthorized-person transition
alerts even inside the alert cooldown. -/
theorem C2_event_gate_alert_rule :
    (∀ (cfg : GateConfig) (st : GateState) (now : ℚ) (p a : Bool),
      ((gateDecide cfg st now p a).alert = true →
        (gateDecide cfg st now p a).record = true ∧ p = true ∧ a = false)
      ∧ (cfg.snsConfigured = true → (gateDecide cfg st now p a).record = true →
          p = true → a = false →
          (gateDecide cfg st now p a).alert
            = ((p && !a && !st.prevPersonConfirmed)
                || decide (cfg.alertCooldown ≤ now - st.lastAlertTs)))
      ∧ ((gateDecide cfg st now p a).alert = true →
          (gateDecide cfg st now p a).state.lastAlertTs = now))
    ∧ (∀ (cfg : GateConfig) (st : GateState) (now : ℚ),
        cfg.snsConfigured = true → st.prevPersonConfirmed = false →
        cfg.eventCooldown ≤ now - st.lastEventTs →
        now - st.lastAlertTs < cfg.alertCooldown →
        (gateDecide cfg st now true false).alert = true) := by
  constructor
  · intro cfg st now p a
    refine ⟨?_, ?_, gate_lastAlertTs_of_alert cfg st now p a⟩
    · intro h
      rw [gate_alert_def] at h
      simp only [Bool.and_eq_true, Bool.not_eq_true'] at h
      refine ⟨by tauto, by tauto, by tauto⟩
    · intro hsns hrec hp ha
      subst hp; subst ha
      rw [gate_alert_def, hrec, hsns]
      simp
  · intro cfg st now hsns hprev hrec hcool
    rw [gate_alert_def, gate_record_def, hsns, hprev]
    have : decide (cfg.eventCooldown ≤ now - st.lastEventTs) = true := by
      simpa using hrec
    simp [this]

/-- Witness for C2, instantiating the edge-trigger scenario: cooldown not yet
elapsed, fresh transition, alert still fires. -/
theorem C2_witness :
    (⟨true, 12, 180, true⟩ : GateConfig).snsConfigured = true
    ∧ (⟨0, 50, false⟩ : GateState).prevPersonConfirmed = false
    ∧ (⟨true, 12, 180, true⟩ : GateConfig).eventCooldown
        ≤ (100 : ℚ) - (⟨0, 50, false⟩ : GateState).lastEventTs
    ∧ (100 : ℚ) - (⟨0, 50, false⟩ : GateState).lastAlertTs
        < (⟨true, 12, 180, true⟩ : GateConfig).alertCooldown
    ∧ (gateDecide ⟨true, 12, 180, true⟩ ⟨0, 50, false⟩ 100 true false).alert = true := by
  refine ⟨rfl, rfl, by norm_num, by norm_num, ?_⟩
  exact C2_event_gate_alert_rule.2 ⟨true, 12, 180, true⟩ ⟨0, 50, false⟩ 100 rfl rfl
    (by norm_num) (by norm_num)

/-- C3 counterexample: a gate evaluation with a confirmed person whose
recording is blocked by the event cooldown (5s < 12s) leaves
`previousPersonConfirmed` at its old value `false` instead of updating it to
the evaluated `confirmedPersonPresent = true`. -/
theorem C3_counterexample :
    (gateDecide ⟨true, 12, 180, true⟩ ⟨100, 0, false⟩ 105 true
        false).state.prevPersonConfirmed ≠ true
    ∧ (gateDecide ⟨true, 12, 180, true⟩ ⟨100, 0, false⟩ 105 true false).record = false := by
  constructor
  · rw [gateDecide_spec]; norm_num
  · rw [gate_record_def]; norm_num

/-- C3 amended: `previousPersonConfirmed` is updated to the evaluation's
`confirmedPersonPresent` only when `record` is true; on cooldown-blocked (or
otherwise non-recording) evaluations it is left unchanged. -/
theorem C3_prev_person_amended :
    ∀ (cfg : GateConfig) (st : GateState) (now : ℚ) (p a : Bool),
      ((gateDecide cfg st now p a).record = true →
        (gateDecide cfg st now p a).state.prevPersonConfirmed = p)
      ∧ ((gateDecide cfg st now p a).record = false →
        (gateDecide cfg st now p a).state.prevPersonConfirmed = st.prevPersonConfirmed) :=
  fun cfg st now p a =>
    ⟨fun h => (gate_state_of_record cfg st now p a h).2,
     fun h => by rw [gate_state_of_not_record cfg st now p a h]⟩

/-- Witness for C3's amended statement at a concrete recording evaluation. -/
theorem C3_witness :
    (gateDecide ⟨true, 12, 180, true⟩ ⟨0, 0, false⟩ 100 true false).record = true
    ∧ (gateDecide ⟨true, 12, 180, true⟩ ⟨0, 0, false⟩ 100 true
        false).state.prevPersonConfirmed = true := by
  have hrec : (gateDecide ⟨true, 12, 180, true⟩ ⟨0, 0, false⟩ 100 true false).record = true := by
    rw [gate_record_def]; norm_num
  exact ⟨hrec, (C3_prev_person_amended ⟨true, 12, 180, true⟩ ⟨0, 0, false⟩ 100 true false).1 hrec⟩

/-! ## Debouncer lemmas -/

theorem streakAfter_append (s0 : Nat) (xs : List Bool) (b : Bool) :
    streakAfter s0 (xs ++ [b]) = debStep (streakAfter s0 xs) b := by
  simp [streakAfter, List.foldl_append]

theorem trailingTrues_append (xs : List Bool) (b : Bool) :
    trailingTrues (xs ++ [b]) = if b then trailingTrues xs + 1 else 0 := by
  unfold trailingTrues
  rw [List.reverse_append]
  cases b <;> simp [List.takeWhile_cons]

theorem streakAfter_eq_trailingTrues (xs : List Bool) :
    streakAfter 0 xs = trailingTrues xs := by
  induction xs using List.reverseRecOn with
  | nil => rfl
  | append_singleton xs b ih =>
    rw [streakAfter_append, trailingTrues_append]
    cases b <;> simp [debStep, ih]

theorem debTrace_getD (sigs : List Bool) (s0 : Nat) (i : Nat) :
    (debTrace s0 sigs).getD i false
      = ((sigs.getD i false)
          && decide (MIN_PERSON_FRAMES ≤ streakAfter s0 (sigs.take (i + 1)))) := by
  induction sigs generalizing s0 i with
  | nil => simp [debTrace]
  | cons s rest ih =>
    cases i with
    | zero =>
      simp only [debTrace, List.getD_cons_zero, List.take, streakAfter, List.foldl]
      cases s <;>
        simp [debConfirmed, debStep, streakAfter, MIN_PERSON_FRAMES, ← decide_not, Nat.not_lt]
    | succ n =>
      simp only [debTrace, List.getD_cons_succ, List.take_succ_cons]
      rw [ih]
      simp [streakAfter]

/-- C4: the debouncer increments the streak on each true raw signal and resets
it on each false one; a cycle is confirmed (downstream event/alert logic runs
with a person present) iff the raw signal is true and the positive streak
ending there has reached `MIN_PERSON_FRAMES`; on `[T,T,F,T,T]` with threshold
2 this confirms exactly at indices 1 and 4. -/
theorem C4_debouncer_streak :
    (∀ (sigs : List Bool) (i : Nat),
      (debTrace 0 sigs).getD i false
        = ((sigs.getD i false)
            && decide (MIN_PERSON_FRAMES ≤ trailingTrues (sigs.take (i + 1)))))
    ∧ (∀ (sigs : List Bool) (b : Bool),
        streakAfter 0 (sigs ++ [b]) = if b then streakAfter 0 sigs + 1 else 0)
    ∧ debTrace 0 [true, true, false, true, true] = [false, true, false, false, true] := by
  refine ⟨?_, ?_, by decide⟩
  · intro sigs i
    rw [debTrace_getD, streakAfter_eq_trailingTrues]
  · intro sigs b
    rw [streakAfter_append]
    rfl

/-! ## Scheduler lemmas -/

theorem tryLaunch_fst (i : ℚ) (st : SchedState) (now : ℚ) :
    (tryLaunch i st now).1 = (decide (i ≤ now - st.lastInferT) && !st.inFlight) := by
  rcases Bool.eq_false_or_eq_true (decide (i ≤ now - st.lastInferT) && !st.inFlight) with h | h <;>
    simp [tryLaunch, h]

theorem tryLaunch_snd_of_true (i : ℚ) (st : SchedState) (now : ℚ)
    (h : (tryLaunch i st now).1 = true) :
    (tryLaunch i st now).2 = ⟨true, now⟩ := by
  rw [tryLaunch_fst] at h
  simp [tryLaunch, h]

theorem tryLaunch_snd_of_false (i : ℚ) (st : SchedState) (now : ℚ)
    (h : (tryLaunch i st now).1 = false) :
    (tryLaunch i st now).2 = st := by
  rw [tryLaunch_fst] at h
  simp [tryLaunch, h]

theorem launchedOn_false_of_inFlight (st : SchedState) (e : SchedEvent)
    (h : st.inFlight = true) : launchedOn st e = false := by
  cases e with
  | tick now => simp [launchedOn, tryLaunch_fst, h]
  | release => rfl

theorem schedStep_inFlight_of_inFlight (st : SchedState) (e : SchedEvent)
    (h : st.inFlight = true) (hne : e ≠ SchedEvent.release) :
    (schedStep st e).inFlight = true := by
  cases e with
  | tick now =>
    have h1 : (tryLaunch INFER_EVERY_SEC st now).1 = false := by
      simp [tryLaunch_fst, h]
    simp [schedStep, tryLaunch_snd_of_false _ _ _ h1, h]
  | release => exact absurd rfl hne

theorem schedLaunches_length (st : SchedState) (evs : List SchedEvent) :
    (schedLaunches st evs).length = evs.length := by
  induction evs generalizing st with
  | nil => rfl
  | cons e es ih => simp [schedLaunches, ih]

/-- While in flight and with no release among the first `i` events, no launch
happens at position `i`. -/
theorem schedLaunches_getD_false (evs : List SchedEvent) (st : SchedState) (i : Nat)
    (hin : st.inFlight = true)
    (hnr : ∀ k, k < i → evs.getD k (SchedEvent.tick 0) ≠ SchedEvent.release) :
    (schedLaunches st evs).getD i false = false := by
  induction evs generalizing st i with
  | nil => simp [schedLaunches]
  | cons e es ih =>
    cases i with
    | zero =>
      simpa [schedLaunches, List.getD_cons_zero] using launchedOn_false_of_inFlight st e hin
    | succ n =>
      have he : e ≠ SchedEvent.release := by
        have h0 := hnr 0 (Nat.succ_pos n)
        simpa [List.getD_cons_zero] using h0
      have hin' : (schedStep st e).inFlight = true := schedStep_inFlight_of_inFlight st e hin he
      have hnr' : ∀ k, k < n → es.getD k (SchedEvent.tick 0) ≠ SchedEvent.release := by
        intro k hk
        have hkk := hnr (k + 1) (Nat.succ_lt_succ hk)
        simpa [List.getD_cons_succ] using hkk
      simpa [schedLaunches, List.getD_cons_succ] using ih (schedStep st e) n hin' hnr'

theorem schedLaunches_append (st : SchedState) (as bs : List SchedEvent) :
    schedLaunches st (as ++ bs)
      = schedLaunches st as ++ schedLaunches (as.foldl schedStep st) bs := by
  induction as generalizing st with
  | nil => rfl
  | cons a as ih => simp [schedLaunches, ih, List.foldl_cons]

/-- After a launch at position `i`, the scheduler state past event `i` is in
flight. -/
theorem inFlight_after_launch (evs : List SchedEvent) (st : SchedState) (i : Nat)
    (h : (schedLaunches st evs).getD i false = true) :
    ((evs.take (i + 1)).foldl schedStep st).inFlight = true := by
  induction evs generalizing st i with
  | nil => simp [schedLaunches] at h
  | cons e es ih =>
    cases i with
    | zero =>
      simp only [schedLaunches, List.getD_cons_zero] at h
      cases e with
      | tick now =>
        simp only [launchedOn] at h
        have h2 := tryLaunch_snd_of_true INFER_EVERY_SEC st now h
        simp [List.take_succ_cons, schedStep, h2]
      | release => simp [launchedOn] at h
    | succ n =>
      simp only [schedLaunches, List.getD_cons_succ] at h
      have hh := ih (schedStep st e) n h
      simpa [List.take_succ_cons] using hh

theorem lt_length_of_launch (evs : List SchedEvent) (st : SchedState) (i : Nat)
    (h : (schedLaunches st evs).getD i false = true) : i < evs.length := by
  by_contra hlt
  push_neg at hlt
  rw [List.getD_eq_default _ _ (by rw [schedLaunches_length]; omega)] at h
  exact Bool.false_ne_true h

/-- C5: a tick launches a cycle iff the inference interval has elapsed and no
cycle is in flight (setting the flag and `lastInferenceTime`), and over any
event sequence two launches are always separated by an in-flight release. -/
theorem C5_single_flight_scheduler :
    (∀ (st : SchedState) (now : ℚ),
      ((tryLaunch INFER_EVERY_SEC st now).1
          = (decide (INFER_EVERY_SEC ≤ now - st.lastInferT) && !st.inFlight))
      ∧ ((tryLaunch INFER_EVERY_SEC st now).1 = true →
          (tryLaunch INFER_EVERY_SEC st now).2 = ⟨true, now⟩)
      ∧ ((tryLaunch INFER_EVERY_SEC st now).1 = false →
          (tryLaunch INFER_EVERY_SEC st now).2 = st))
    ∧ (∀ (st : SchedState) (evs : List SchedEvent) (i j : Nat),
        i < j →
        (schedLaunches st evs).getD i false = true →
        (schedLaunches st evs).getD j false = true →
        ∃ k, i < k ∧ k < j ∧ evs.getD k (SchedEvent.tick 0) = SchedEvent.release) := by
  constructor
  · intro st now
    exact ⟨tryLaunch_fst _ st now, tryLaunch_snd_of_true _ st now,
      tryLaunch_snd_of_false _ st now⟩
  · intro st evs i j hij hi hj
    by_contra hcon
    push_neg at hcon
    have hst2 : ((evs.take (i + 1)).foldl schedStep st).inFlight = true :=
      inFlight_after_launch evs st i hi
    have hlen_as : (schedLaunches st (evs.take (i + 1))).length = i + 1 := by
      rw [schedLaunches_length, List.length_take]
      have := lt_length_of_launch evs st i hi
      omega
    have hj' : (schedLaunches ((evs.take (i + 1)).foldl schedStep st)
        (evs.drop (i + 1))).getD (j - (i + 1)) false = true := by
      have hjj := hj
      rw [← List.take_append_drop (i + 1) evs, schedLaunches_append,
        List.getD_eq_getElem?_getD, List.getElem?_append_right (by omega),
        ← List.getD_eq_getElem?_getD] at hjj
      rwa [hlen_as] at hjj
    have hnr : ∀ k, k < j - (i + 1) →
        (evs.drop (i + 1)).getD k (SchedEvent.tick 0) ≠ SchedEvent.release := by
      intro k hk
      have h1 : (evs.drop (i + 1)).getD k (SchedEvent.tick 0)
          = evs.getD (i + 1 + k) (SchedEvent.tick 0) := by
        rw [List.getD_eq_getElem?_getD, List.getElem?_drop, ← List.getD_eq_getElem?_getD]
      rw [h1]
      exact hcon (i + 1 + k) (by omega) (by omega)
    have hfalse := schedLaunches_getD_false (evs.drop (i + 1))
      ((evs.take (i + 1)).foldl schedStep st) (j - (i + 1)) hst2 hnr
    rw [hfalse] at hj'
    exact Bool.false_ne_true hj'

/-- Witness for C5 on the concrete trace tick 10 / release / tick 20:
both ticks launch, and the theorem yields the intervening release. -/
theorem C5_witness :
    (0 : Nat) < 2
    ∧ (schedLaunches ⟨false, 0⟩
        [SchedEvent.tick 10, SchedEvent.release, SchedEvent.tick 20]).getD 0 false = true
    ∧ (schedLaunches ⟨false, 0⟩
        [SchedEvent.tick 10, SchedEvent.release, SchedEvent.tick 20]).getD 2 false = true
    ∧ ∃ k, 0 < k ∧ k < 2 ∧
        ([SchedEvent.tick 10, SchedEvent.release,
          SchedEvent.tick 20]).getD k (SchedEvent.tick 0) = SchedEvent.release := by
  have h0 : (schedLaunches ⟨false, 0⟩
      [SchedEvent.tick 10, SchedEvent.release, SchedEvent.tick 20]).getD 0 false = true := by
    norm_num [schedLaunches, launchedOn, schedStep, tryLaunch, INFER_EVERY_SEC]
  have h2 : (schedLaunches ⟨false, 0⟩
      [SchedEvent.tick 10, SchedEvent.release, SchedEvent.tick 20]).getD 2 false = true := by
    norm_num [schedLaunches, launchedOn, schedStep, tryLaunch, INFER_EVERY_SEC]
  exact ⟨by norm_num, h0, h2,
    C5_single_flight_scheduler.2 ⟨false, 0⟩
      [SchedEvent.tick 10, SchedEvent.release, SchedEvent.tick 20] 0 2 (by norm_num) h0 h2⟩

/-! ## Cycle lemmas (cliente_valdivia) -/

namespace Cliente

/-- The `finally` always clears `infer_in_flight`, on every path of the cycle
and for every fault. -/
theorem runCycle_inFlight (cfg : CycleConfig) (st : CycleState) (now : ℚ)
    (labels : List Label) (fm : Bool) (fault : Fault) :
    (runCycle cfg st now labels fm fault).state.inFlight = false := by
  cases fault <;>
    simp only [runCycle] <;>
    (repeat' split) <;>
    simp [finish, awsCatch]

/-- A cycle that evaluated `should_record` to true wrote `last_event_ts = now`,
before any of the fallible I/O calls. -/
theorem runCycle_recorded_lastEventTs (cfg : CycleConfig) (st : CycleState) (now : ℚ)
    (labels : List Label) (fm : Bool) (fault : Fault)
    (h : (runCycle cfg st now labels fm fault).recorded = true) :
    (runCycle cfg st now labels fm fault).state.lastEventTs = now := by
  revert h
  cases fault <;>
    simp only [runCycle] <;>
    (repeat' split) <;>
    simp [finish, awsCatch]

/-- The raising `detect_labels` call: overlay gets the error code, nothing is
persisted. -/
theorem runCycle_detect_eq (cfg : CycleConfig) (st : CycleState) (now : ℚ)
    (labels : List Label) (fm : Bool) (c : String) :
    (runCycle cfg st now labels fm (.detect c)).state.texts
        = appendLeft6 ("AWSERR:" ++ c) st.texts
    ∧ (runCycle cfg st now labels fm (.detect c)).persisted = [] :=
  ⟨rfl, rfl⟩

/-- An upload fault aborts before persistence and before the alert-state
updates. -/
theorem runCycle_upload_state (cfg : CycleConfig) (st : CycleState) (now : ℚ)
    (labels : List Label) (fm : Bool) (c : String) :
    (runCycle cfg st now labels fm (.upload c)).state.prevPersonConfirmed
        = st.prevPersonConfirmed
    ∧ (runCycle cfg st now labels fm (.upload c)).state.lastAlertTs = st.lastAlertTs
    ∧ (runCycle cfg st now labels fm (.upload c)).persisted = [] := by
  simp only [runCycle]
  (repeat' split) <;> simp [finish, awsCatch]

/-- A persistence fault likewise. -/
theorem runCycle_persist_state (cfg : CycleConfig) (st : CycleState) (now : ℚ)
    (labels : List Label) (fm : Bool) (c : String) :
    (runCycle cfg st now labels fm (.persist c)).state.prevPersonConfirmed
        = st.prevPersonConfirmed
    ∧ (runCycle cfg st now labels fm (.persist c)).state.lastAlertTs = st.lastAlertTs
    ∧ (runCycle cfg st now labels fm (.persist c)).persisted = [] := by
  simp only [runCycle]
  (repeat' split) <;> simp [finish, awsCatch]

/-- A publish fault happens after the event was persisted: the persisted
events equal those of the fault-free cycle. -/
theorem runCycle_publish_persisted (cfg : CycleConfig) (st : CycleState) (now : ℚ)
    (labels : List Label) (fm : Bool) (c : String) :
    (runCycle cfg st now labels fm (.publish c)).persisted
      = (runCycle cfg st now labels fm Fault.noFault).persisted := by
  simp only [runCycle]
  (repeat' split) <;> simp_all [finish, awsCatch]

/-- When the publish call actually raised (the cycle had fired its alert), the
post-I/O updates of `last_email_ts` and `prev_person_state` are skipped. -/
theorem runCycle_publish_state (cfg : CycleConfig) (st : CycleState) (now : ℚ)
    (labels : List Label) (fm : Bool) (c : String)
    (h : (runCycle cfg st now labels fm (.publish c)).alerted = true) :
    (runCycle cfg st now labels fm (.publish c)).state.prevPersonConfirmed
        = st.prevPersonConfirmed
    ∧ (runCycle cfg st now labels fm (.publish c)).state.lastAlertTs = st.lastAlertTs := by
  revert h
  simp only [runCycle]
  (repeat' split) <;> simp [finish, awsCatch]

end Cliente

/-! ## Cycle lemmas (main.py) -/

namespace Main

/-- When the cycle reaches its `try` block (the inactive-config early return
is not taken), the `finally` clears `infer_in_flight` on every path. -/
theorem runCycle_inFlight_reached (cfg : CycleConfig) (st : CycleState) (now : ℚ)
    (labels : List Label) (active : Bool) (fault : Fault)
    (h : (decide (cfg.heartbeatSec < now - st.lastHeartbeatTs) && !active) = false) :
    (runCycle cfg st now labels active fault).state.inFlight = false := by
  cases fault <;>
    simp only [runCycle, h] <;>
    simp only [Bool.false_eq_true, if_false] <;>
    (repeat' split) <;>
    simp [finish, awsCatch]

/-- The early return of the inactive-config check happens before the `try`, so
`infer_in_flight` is left at its previous value. -/
theorem runCycle_inactive (cfg : CycleConfig) (st : CycleState) (now : ℚ)
    (labels : List Label) (active : Bool) (fault : Fault)
    (h : (decide (cfg.heartbeatSec < now - st.lastHeartbeatTs) && !active) = true) :
    (runCycle cfg st now labels active fault).state.inFlight = st.inFlight
    ∧ (runCycle cfg st now labels active fault).persisted = [] := by
  simp only [runCycle, h]
  simp

/-- Every event `run_inference` of src/main.py builds carries the literal
`authorized = False`. -/
theorem runCycle_persisted_unauthorized (cfg : CycleConfig) (st : CycleState) (now : ℚ)
    (labels : List Label) (active : Bool) (fault : Fault) :
    ∀ e ∈ (runCycle cfg st now labels active fault).persisted, e.authorized = false := by
  cases fault <;>
    simp only [runCycle] <;>
    (repeat' split) <;>
    simp [finish, awsCatch]

/-- An alert decision is reached only on recording cycles. -/
theorem runCycle_alerted_recorded (cfg : CycleConfig) (st : CycleState) (now : ℚ)
    (labels : List Label) (active : Bool) (fault : Fault)
    (h : (runCycle cfg st now labels active fault).alerted = true) :
    (runCycle cfg st now labels active fault).recorded = true := by
  revert h
  cases fault <;>
    simp only [runCycle] <;>
    (repeat' split) <;>
    simp [finish, awsCatch]

/-- Upload, persistence and publish faults are swallowed inside the helpers of
src/main.py: the cycle's global state is exactly that of the fault-free
cycle. -/
theorem runCycle_fault_state_inv (cfg : CycleConfig) (st : CycleState) (now : ℚ)
    (labels : List Label) (active : Bool) (c : String) :
    (runCycle cfg st now labels active (.upload c)).state
        = (runCycle cfg st now labels active Fault.noFault).state
    ∧ (runCycle cfg st now labels active (.persist c)).state
        = (runCycle cfg st now labels active Fault.noFault).state
    ∧ (runCycle cfg st now labels active (.publish c)).state
        = (runCycle cfg st now labels active Fault.noFault).state := by
  refine ⟨?_, ?_, ?_⟩ <;>
    simp only [runCycle] <;>
    (repeat' split) <;>
    simp_all [finish, awsCatch]

end Main

/-- C6 counterexample: (1) in cliente_valdivia, an SNS publish fault appends
`AWSERR:Throttling` to the overlay although the cycle did persist an event;
(2) in main.py, a cycle aborted by the pre-`try` inactive-config check ends
with `infer_in_flight` still set. -/
theorem C6_counterexample :
    (Cliente.runCycle ⟨2, true, 12, 180, true, 5⟩ ⟨1, [], false, 0, 0, false, true⟩ 100
        [⟨"Person", 90⟩] false (Fault.publish "Throttling")).state.texts
      = ["AWSERR:Throttling", "Person"]
    ∧ (Cliente.runCycle ⟨2, true, 12, 180, true, 5⟩ ⟨1, [], false, 0, 0, false, true⟩ 100
        [⟨"Person", 90⟩] false (Fault.publish "Throttling")).persisted ≠ []
    ∧ (Main.runCycle ⟨2, true, 12, 180, true, 5⟩ ⟨0, [], false, 0, 0, false, true, 0⟩ 100
        [] false Fault.noFault).state.inFlight = true := by
  have hp : isPersonLabel ⟨"Person", (90 : ℚ)⟩ = true := by decide
  have hs : "AWSERR:" ++ "Throttling" = "AWSERR:Throttling" := by decide
  refine ⟨?_, ?_, ?_⟩
  · norm_num [Cliente.runCycle, Cliente.awsCatch, deriveDetection, labelsSorted,
      sortByConfDesc, insertByConfDesc, hp, labelTexts, setTexts, appendLeft6, debStep,
      TOP_LABELS, MIN_PERSON_FRAMES, hs]
  · norm_num [Cliente.runCycle, Cliente.awsCatch, deriveDetection, labelsSorted,
      sortByConfDesc, insertByConfDesc, hp, labelTexts, setTexts, appendLeft6, debStep,
      TOP_LABELS, MIN_PERSON_FRAMES]
  · norm_num [Main.runCycle]

/-- C6 amended: the in-flight flag is cleared on every path that reaches the
`try` block (in main.py a cycle aborted by the pre-`try` inactive-config check
leaves the flag set); an AWS error from label detection, media upload or event
persistence appends the error code and yields no persisted event, while an
error from the alert publish leaves the already-persisted event in place. -/
theorem C6_inflight_release_amended :
    ∀ (cfg : CycleConfig) (st : Cliente.CycleState) (now : ℚ) (labels : List Label)
      (fm : Bool) (c : String) (fault : Fault) (stM : Main.CycleState) (active : Bool),
      ((Cliente.runCycle cfg st now labels fm fault).state.inFlight = false)
      ∧ ((decide (cfg.heartbeatSec < now - stM.lastHeartbeatTs) && !active) = false →
          (Main.runCycle cfg stM now labels active fault).state.inFlight = false)
      ∧ ((decide (cfg.heartbeatSec < now - stM.lastHeartbeatTs) && !active) = true →
          (Main.runCycle cfg stM now labels active fault).state.inFlight = stM.inFlight)
      ∧ ((Cliente.runCycle cfg st now labels fm (.detect c)).state.texts
            = appendLeft6 ("AWSERR:" ++ c) st.texts
          ∧ (Cliente.runCycle cfg st now labels fm (.detect c)).persisted = [])
      ∧ ((Cliente.runCycle cfg st now labels fm (.upload c)).persisted = [])
      ∧ ((Cliente.runCycle cfg st now labels fm (.persist c)).persisted = [])
      ∧ ((Cliente.runCycle cfg st now labels fm (.publish c)).persisted
          = (Cliente.runCycle cfg st now labels fm Fault.noFault).persisted) := by
  intro cfg st now labels fm c fault stM active
  exact ⟨Cliente.runCycle_inFlight cfg st now labels fm fault,
    fun h => Main.runCycle_inFlight_reached cfg stM now labels active fault h,
    fun h => (Main.runCycle_inactive cfg stM now labels active fault h).1,
    Cliente.runCycle_detect_eq cfg st now labels fm c,
    (Cliente.runCycle_upload_state cfg st now labels fm c).2.2,
    (Cliente.runCycle_persist_state cfg st now labels fm c).2.2,
    Cliente.runCycle_publish_persisted cfg st now labels fm c⟩

/-- Witness for C6's amended statement: a cycle that reaches its `try` block
(heartbeat not due) releases the in-flight flag. -/
theorem C6_witness :
    (decide ((⟨2, true, 12, 180, true, 5⟩ : CycleConfig).heartbeatSec
        < (100 : ℚ) - (⟨0, [], false, 0, 0, false, true, 100⟩ : Main.CycleState).lastHeartbeatTs)
      && !true) = false
    ∧ (Main.runCycle ⟨2, true, 12, 180, true, 5⟩ ⟨0, [], false, 0, 0, false, true, 100⟩ 100
        [] true Fault.noFault).state.inFlight = false := by
  have h : (decide ((⟨2, true, 12, 180, true, 5⟩ : CycleConfig).heartbeatSec
      < (100 : ℚ) - (⟨0, [], false, 0, 0, false, true, 100⟩ : Main.CycleState).lastHeartbeatTs)
      && !true) = false := by norm_num
  exact ⟨h, (C6_inflight_release_amended ⟨2, true, 12, 180, true, 5⟩
    ⟨0, [], false, 0, 0, false, true⟩ 100 [] false "X" Fault.noFault
    ⟨0, [], false, 0, 0, false, true, 100⟩ true).2.1 h⟩

/-- C9 counterexample: in cliente_valdivia a media-upload fault on a
recording-approved cycle (confirmed person) releases the in-flight flag and
keeps `lastEventTimestamp = now`, but `previousPersonConfirmed` is still at
its old value `false`, so the gate-state updates did not all happen before
the fallible I/O as the claim states. -/
theorem C9_counterexample :
    (deriveDetection [⟨"Person", 90⟩]).1 = true
    ∧ (Cliente.runCycle ⟨2, true, 12, 180, true, 5⟩ ⟨1, [], false, 0, 0, false, true⟩ 100
        [⟨"Person", 90⟩] false (Fault.upload "Throttling")).recorded = true
    ∧ (Cliente.runCycle ⟨2, true, 12, 180, true, 5⟩ ⟨1, [], false, 0, 0, false, true⟩ 100
        [⟨"Person", 90⟩] false (Fault.upload "Throttling")).state.inFlight = false
    ∧ (Cliente.runCycle ⟨2, true, 12, 180, true, 5⟩ ⟨1, [], false, 0, 0, false, true⟩ 100
        [⟨"Person", 90⟩] false (Fault.upload "Throttling")).state.lastEventTs = 100
    ∧ (Cliente.runCycle ⟨2, true, 12, 180, true, 5⟩ ⟨1, [], false, 0, 0, false, true⟩ 100
        [⟨"Person", 90⟩] false (Fault.upload "Throttling")).state.prevPersonConfirmed
        = false := by
  have hp : isPersonLabel ⟨"Person", (90 : ℚ)⟩ = true := by decide
  have hs : "AWSERR:" ++ "Throttling" = "AWSERR:Throttling" := by decide
  have hr : Cliente.runCycle ⟨2, true, 12, 180, true, 5⟩ ⟨1, [], false, 0, 0, false, true⟩ 100
      [⟨"Person", 90⟩] false (Fault.upload "Throttling")
      = ⟨⟨2, ["AWSERR:Throttling", "Person"], true, 100, 0, false, false⟩, [], 0, true, false⟩ := by
    norm_num [Cliente.runCycle, Cliente.awsCatch, deriveDetection, labelsSorted,
      sortByConfDesc, insertByConfDesc, hp, labelTexts, setTexts, appendLeft6, debStep,
      TOP_LABELS, MIN_PERSON_FRAMES, hs]
  refine ⟨?_, ?_, ?_, ?_, ?_⟩
  · norm_num [deriveDetection, labelsSorted, sortByConfDesc, insertByConfDesc, hp, TOP_LABELS]
  all_goals rw [hr]

/-- C9 amended: on recording-approved cycles a fault in upload, persistence or
publish never keeps the in-flight flag set and never escapes the cycle;
`lastEventTimestamp` is updated before the fallible I/O and survives such
faults, but `lastAlertTimestamp` and `previousPersonConfirmed` are updated
only after the I/O — in cliente_valdivia an upload or persistence fault (or a
publish fault on an alert-firing cycle) leaves them unchanged, while main.py
swallows these faults inside its helpers so its global state matches the
fault-free cycle. -/
theorem C9_failure_isolation_amended :
    ∀ (cfg : CycleConfig) (st : Cliente.CycleState) (now : ℚ) (labels : List Label)
      (fm : Bool) (c : String) (stM : Main.CycleState) (active : Bool),
      ((Cliente.runCycle cfg st now labels fm (.upload c)).state.inFlight = false
        ∧ (Cliente.runCycle cfg st now labels fm (.persist c)).state.inFlight = false
        ∧ (Cliente.runCycle cfg st now labels fm (.publish c)).state.inFlight = false)
      ∧ (∀ fault : Fault,
          (Cliente.runCycle cfg st now labels fm fault).recorded = true →
          (Cliente.runCycle cfg st now labels fm fault).state.lastEventTs = now)
      ∧ ((Cliente.runCycle cfg st now labels fm (.upload c)).state.prevPersonConfirmed
            = st.prevPersonConfirmed
          ∧ (Cliente.runCycle cfg st now labels fm (.upload c)).state.lastAlertTs
            = st.lastAlertTs)
      ∧ ((Cliente.runCycle cfg st now labels fm (.persist c)).state.prevPersonConfirmed
            = st.prevPersonConfirmed
          ∧ (Cliente.runCycle cfg st now labels fm (.persist c)).state.lastAlertTs
            = st.lastAlertTs)
      ∧ ((Cliente.runCycle cfg st now labels fm (.publish c)).alerted = true →
          (Cliente.runCycle cfg st now labels fm (.publish c)).state.prevPersonConfirmed
              = st.prevPersonConfirmed
          ∧ (Cliente.runCycle cfg st now labels fm (.publish c)).state.lastAlertTs
              = st.lastAlertTs)
      ∧ ((Main.runCycle cfg stM now labels active (.upload c)).state
            = (Main.runCycle cfg stM now labels active Fault.noFault).state
          ∧ (Main.runCycle cfg stM now labels active (.persist c)).state
            = (Main.runCycle cfg stM now labels active Fault.noFault).state
          ∧ (Main.runCycle cfg stM now labels active (.publish c)).state
            = (Main.runCycle cfg stM now labels active Fault.noFault).state) := by
  intro cfg st now labels fm c stM active
  refine ⟨⟨Cliente.runCycle_inFlight cfg st now labels fm _,
      Cliente.runCycle_inFlight cfg st now labels fm _,
      Cliente.runCycle_inFlight cfg st now labels fm _⟩,
    fun fault => Cliente.runCycle_recorded_lastEventTs cfg st now labels fm fault,
    ⟨(Cliente.runCycle_upload_state cfg st now labels fm c).1,
      (Cliente.runCycle_upload_state cfg st now labels fm c).2.1⟩,
    ⟨(Cliente.runCycle_persist_state cfg st now labels fm c).1,
      (Cliente.runCycle_persist_state cfg st now labels fm c).2.1⟩,
    fun h => Cliente.runCycle_publish_state cfg st now labels fm c h,
    Main.runCycle_fault_state_inv cfg stM now labels active c⟩

/-- Witness for C9's amended statement: a concrete recording-approved cycle
keeps `lastEventTimestamp = now` under an upload fault. -/
theorem C9_witness :
    (Cliente.runCycle ⟨2, true, 12, 180, true, 5⟩ ⟨1, [], false, 0, 0, false, true⟩ 100
        [⟨"Person", 90⟩] false (Fault.upload "Err")).recorded = true
    ∧ (Cliente.runCycle ⟨2, true, 12, 180, true, 5⟩ ⟨1, [], false, 0, 0, false, true⟩ 100
        [⟨"Person", 90⟩] false (Fault.upload "Err")).state.lastEventTs = 100 := by
  have hp : isPersonLabel ⟨"Person", (90 : ℚ)⟩ = true := by decide
  have hrec : (Cliente.runCycle ⟨2, true, 12, 180, true, 5⟩ ⟨1, [], false, 0, 0, false, true⟩ 100
      [⟨"Person", 90⟩] false (Fault.upload "Err")).recorded = true := by
    norm_num [Cliente.runCycle, Cliente.awsCatch, deriveDetection, labelsSorted,
      sortByConfDesc, insertByConfDesc, hp, labelTexts, setTexts, appendLeft6, debStep,
      TOP_LABELS, MIN_PERSON_FRAMES]
  exact ⟨hrec, (C9_failure_isolation_amended ⟨2, true, 12, 180, true, 5⟩
    ⟨1, [], false, 0, 0, false, true⟩ 100 [⟨"Person", 90⟩] false "Err"
    ⟨0, [], false, 0, 0, false, true, 0⟩ true).2.1 (Fault.upload "Err") hrec⟩

/-- C10: in the src/main.py client every persisted event carries
`authorized = False`, for all inputs and fault scenarios, and an alert can
only arise on a recording cycle — the unauthorized-person branch is the only
alert path. -/
theorem C10_main_always_unauthorized :
    ∀ (cfg : CycleConfig) (st : Main.CycleState) (now : ℚ) (labels : List Label)
      (active : Bool) (fault : Fault),
      (∀ e ∈ (Main.runCycle cfg st now labels active fault).persisted, e.authorized = false)
      ∧ ((Main.runCycle cfg st now labels active fault).alerted = true →
          (Main.runCycle cfg st now labels active fault).recorded = true) :=
  fun cfg st now labels active fault =>
    ⟨Main.runCycle_persisted_unauthorized cfg st now labels active fault,
     Main.runCycle_alerted_recorded cfg st now labels active fault⟩

/-- Witness for C10 on a concrete recording cycle of the main.py client. -/
theorem C10_witness :
    (⟨true, false, 90, "events/raw/thumb.jpg"⟩ : EventItem)
      ∈ (Main.runCycle ⟨2, true, 12, 180, true, 5⟩ ⟨1, [], false, 0, 0, false, true, 100⟩ 100
          [⟨"Person", 90⟩] true Fault.noFault).persisted
    ∧ (⟨true, false, 90, "events/raw/thumb.jpg"⟩ : EventItem).authorized = false := by
  have hp : isPersonLabel ⟨"Person", (90 : ℚ)⟩ = true := by decide
  have hmem : (⟨true, false, 90, "events/raw/thumb.jpg"⟩ : EventItem)
      ∈ (Main.runCycle ⟨2, true, 12, 180, true, 5⟩ ⟨1, [], false, 0, 0, false, true, 100⟩ 100
          [⟨"Person", 90⟩] true Fault.noFault).persisted := by
    norm_num [Main.runCycle, Main.finish, deriveDetection, labelsSorted,
      sortByConfDesc, insertByConfDesc, hp, labelTexts, setTexts, appendLeft6, debStep,
      TOP_LABELS, MIN_PERSON_FRAMES]
  exact ⟨hmem, (C10_main_always_unauthorized ⟨2, true, 12, 180, true, 5⟩
    ⟨1, [], false, 0, 0, false, true, 100⟩ 100 [⟨"Person", 90⟩] true Fault.noFault).1 _ hmem⟩

/-! ## Derivation lemmas for C7 -/

theorem derive_foldl (ls : List Label) (b : Bool) (q : ℚ) :
    ls.foldl (fun acc lab => if isPersonLabel lab then (true, max acc.2 lab.confidence) else acc)
        (b, q)
      = (b || ls.any isPersonLabel,
         (ls.filter isPersonLabel).foldl (fun a l => max a l.confidence) q) := by
  induction ls generalizing b q with
  | nil => simp
  | cons l t ih =>
    by_cases h : isPersonLabel l = true
    · simp [h, ih, List.filter_cons, List.any_cons]
    · simp only [Bool.not_eq_true] at h
      simp [h, ih, List.filter_cons, List.any_cons]

theorem insertByConfDesc_perm (l : Label) (ls : List Label) :
    (insertByConfDesc l ls).Perm (l :: ls) := by
  induction ls with
  | nil => exact List.Perm.refl _
  | cons h t ih =>
    unfold insertByConfDesc
    split
    · exact List.Perm.refl _
    · exact (ih.cons h).trans (List.Perm.swap l h t)

theorem sortByConfDesc_perm (ls : List Label) : (sortByConfDesc ls).Perm ls := by
  induction ls with
  | nil => exact List.Perm.refl _
  | cons h t ih => exact (insertByConfDesc_perm h (sortByConfDesc t)).trans (ih.cons h)

theorem perm_any_eq {l1 l2 : List Label} (h : l1.Perm l2) (p : Label → Bool) :
    l1.any p = l2.any p := by
  rw [Bool.eq_iff_iff]
  simp only [List.any_eq_true]
  exact ⟨fun ⟨x, hx, hpx⟩ => ⟨x, h.mem_iff.mp hx, hpx⟩,
    fun ⟨x, hx, hpx⟩ => ⟨x, h.mem_iff.mpr hx, hpx⟩⟩

/-- C7 counterexample: a five-label response whose "Person" label has the
lowest confidence.  The full list contains a person label, but the code's
top-`TOP_LABELS` truncation drops it, so `personDetected` is false. -/
theorem C7_counterexample :
    (deriveDetection [⟨"Tree", 95⟩, ⟨"Building", 94⟩, ⟨"Car", 93⟩, ⟨"Road", 92⟩,
        ⟨"Person", 91⟩]).1 = false
    ∧ anyPersonLabel [⟨"Tree", 95⟩, ⟨"Building", 94⟩, ⟨"Car", 93⟩, ⟨"Road", 92⟩,
        ⟨"Person", 91⟩] = true := by
  constructor
  · have h1 : isPersonLabel ⟨"Tree", (95 : ℚ)⟩ = false := by decide
    have h2 : isPersonLabel ⟨"Building", (94 : ℚ)⟩ = false := by decide
    have h3 : isPersonLabel ⟨"Car", (93 : ℚ)⟩ = false := by decide
    have h4 : isPersonLabel ⟨"Road", (92 : ℚ)⟩ = false := by decide
    norm_num [deriveDetection, labelsSorted, sortByConfDesc, insertByConfDesc,
      h1, h2, h3, h4, TOP_LABELS]
  · decide

/-- C7 amended: `personDetected` is true iff some label among the
`TOP_LABELS` highest-confidence labels is case-insensitively "person", and
`bestConfidence` is the maximum confidence over those person labels (0 when
none); when the response has at most `TOP_LABELS` labels this coincides with
the original claim over the full list. -/
theorem C7_person_derivation_amended :
    ∀ labels : List Label,
      ((deriveDetection labels).1 = (labelsSorted labels).any isPersonLabel)
      ∧ ((deriveDetection labels).2
          = ((labelsSorted labels).filter isPersonLabel).foldl
              (fun a l => max a l.confidence) 0)
      ∧ (labels.length ≤ TOP_LABELS → (deriveDetection labels).1 = anyPersonLabel labels) := by
  intro labels
  have hperm := sortByConfDesc_perm labels
  refine ⟨?_, ?_, ?_⟩
  · unfold deriveDetection
    rw [derive_foldl]
    simp
  · unfold deriveDetection
    rw [derive_foldl]
  · intro hlen
    unfold deriveDetection anyPersonLabel
    rw [derive_foldl]
    have htake : labelsSorted labels = sortByConfDesc labels := by
      unfold labelsSorted
      exact List.take_of_length_le (by rw [hperm.length_eq]; exact hlen)
    simp only [htake, Bool.false_or]
    exact perm_any_eq hperm isPersonLabel

/-- Witness for C7's amended statement on a short (≤ `TOP_LABELS`) label
list. -/
theorem C7_witness :
    ([⟨"Person", 90⟩] : List Label).length ≤ TOP_LABELS
    ∧ (deriveDetection [⟨"Person", 90⟩]).1 = anyPersonLabel [⟨"Person", 90⟩] := by
  refine ⟨by norm_num [TOP_LABELS], ?_⟩
  exact (C7_person_derivation_amended [⟨"Person", 90⟩]).2.2 (by norm_num [TOP_LABELS])

/-- C8 counterexample: with `confidence = 0` — present and below 70 — the
claim requires MEDIUM, but the code's Python truthiness test
`if confidence and confidence < 70` fails on 0 and yields LOW. -/
theorem C8_counterexample :
    classify_severity false false (some 0) = Severity.low ∧ ((0 : ℚ) < 70) := by
  constructor
  · norm_num [classify_severity]
  · norm_num

/-- C8 amended: HIGH iff person-and-unauthorized (checked first, overriding
confidence); otherwise MEDIUM iff the confidence is present, nonzero and
below 70; otherwise LOW — with the claim's three example values. -/
theorem C8_severity_amended :
    ∀ (p a : Bool) (conf : Option ℚ),
      (classify_severity p a conf = Severity.high ↔ (p = true ∧ a = false))
      ∧ (classify_severity p a conf = Severity.medium
          ↔ (¬(p = true ∧ a = false) ∧ ∃ c, conf = some c ∧ c ≠ 0 ∧ c < 70))
      ∧ (classify_severity true false (some 90) = Severity.high)
      ∧ (classify_severity false false (some 50) = Severity.medium)
      ∧ (classify_severity false false (some 90) = Severity.low) := by
  intro p a conf
  refine ⟨?_, ?_, by norm_num [classify_severity], by norm_num [classify_severity],
    by norm_num [classify_severity]⟩
  · unfold classify_severity
    cases p <;> cases a <;> cases conf <;> simp <;> split <;> simp
  · unfold classify_severity
    cases p <;> cases a <;> cases conf <;> simp <;> split <;> simp_all

/-- Witness for C8's amended statement at the concrete MEDIUM input. -/
theorem C8_witness :
    (¬((false = true) ∧ (false = false)) ∧ ∃ c, (some (50 : ℚ)) = some c ∧ c ≠ 0 ∧ c < 70)
    ∧ classify_severity false false (some 50) = Severity.medium := by
  have hside : ¬((false = true) ∧ (false = false)) ∧
      ∃ c, (some (50 : ℚ)) = some c ∧ c ≠ 0 ∧ c < 70 := by
    refine ⟨by simp, 50, rfl, by norm_num, by norm_num⟩
  exact ⟨hside, (C8_severity_amended false false (some 50)).2.1.mpr hside⟩

end Vision360
